import Mathlib

/-!
Verification of the watch-and-react orchestration core of `jira-auto-trial`
(files `jira.go`, `playwright.go`, the main/login files and the
`credentials`/`config` packages) against its natural-language specification.

The Go code is shallowly embedded:

* Go `error` values are modelled by the inductive `GoErr`; the distinguished
  sentinels `context.Canceled`, `context.DeadlineExceeded` and
  `playwright.ErrTimeout` are constructors, `fmt.Errorf` text is `msg`/`wrap`,
  and `errors.Join` is `join`.
* `errors.Is` is modelled by `GoErr.is`, which compares against the target and
  recursively unwraps `wrap`/`join` children, as the Go standard library does.
* The concurrency of `RunPageLocator` (register a locator handler, block on
  `<-ctx.Done()`, remove the handler, return `ctx.Err()`) and of the
  `errgroup`-based login handlers is modelled by feeding an explicit event
  trace (handler invocations with their reaction outcomes, and cancellation of
  the outer context) to a state machine; quantifying over traces quantifies
  over interleavings.

Key Go semantics used throughout (from the `context` package documentation):
after `ctx, cancel := context.WithCancelCause(parent)` and `cancel(cause)`,
`ctx.Err()` returns `context.Canceled` — the `cause` is retrievable only via
`context.Cause`.  When instead the parent becomes done, `ctx.Err()` returns
the parent's error (`Canceled` or `DeadlineExceeded`).
-/

/-- Model of Go `error` values as used by this repository. -/
inductive GoErr : Type where
  /-- The sentinel `context.Canceled`. -/
  | canceled
  /-- The sentinel `context.DeadlineExceeded`. -/
  | deadlineExceeded
  /-- The sentinel `playwright.ErrTimeout` (and errors `errors.Is`-equal to it). -/
  | timeout
  /-- A leaf error with a message, e.g. `fmt.Errorf("login error: %s", t)`. -/
  | msg (s : String)
  /-- A wrapping error, e.g. `fmt.Errorf("could not create page: %w", err)`. -/
  | wrap (s : String) (err : GoErr)
  /-- The result of `errors.Join` on a non-empty list of non-nil errors. -/
  | join (errs : List GoErr)
deriving Repr

mutual

/-- Structural equality on `GoErr` (Go sentinel identity). -/
def GoErr.beq : GoErr → GoErr → Bool
  | .canceled, .canceled => true
  | .deadlineExceeded, .deadlineExceeded => true
  | .timeout, .timeout => true
  | .msg a, .msg b => a == b
  | .wrap a e, .wrap b f => a == b && GoErr.beq e f
  | .join es, .join fs => GoErr.beqList es fs
  | _, _ => false

/-- Pointwise `GoErr.beq` on lists. -/
def GoErr.beqList : List GoErr → List GoErr → Bool
  | [], [] => true
  | a :: as, b :: bs => GoErr.beq a b && GoErr.beqList as bs
  | _, _ => false

end

mutual

/-- Model of Go `errors.Is err target`: `err` equals the target, or some error
in its `wrap`/`join` unwrap chain does. -/
def GoErr.is : GoErr → GoErr → Bool
  | e, t =>
    GoErr.beq e t ||
      match e with
      | .wrap _ inner => GoErr.is inner t
      | .join es => GoErr.isAny es t
      | _ => false

/-- `errors.Is` over the children of an `errors.Join` error. -/
def GoErr.isAny : List GoErr → GoErr → Bool
  | [], _ => false
  | e :: es, t => GoErr.is e t || GoErr.isAny es t

end

/-!
## `RunPageLocator` (jira.go lines 31–50), single-watcher semantics

```go
func RunPageLocator(ctx context.Context, locator playwright.Locator,
    cb func(ctx context.Context, locator playwright.Locator) error,
    options ...playwright.PageAddLocatorHandlerOptions) error {
  page, err := locator.Page()
  if err != nil { return err }
  ctx, cancel := context.WithCancelCause(ctx)
  if err := page.AddLocatorHandler(locator, func(l playwright.Locator) {
    if err := cb(ctx, l); err != nil { cancel(err) }
  }, options...); err != nil { return err }
  <-ctx.Done()
  _ = page.RemoveLocatorHandler(locator)
  return ctx.Err()
}
```

An execution after successful registration is an ordered trace of events:
each invocation of the registered handler (carrying the outcome of `cb`,
`none` meaning `cb` returned nil) and, possibly, the outer context becoming
done (carrying the value of the outer context's `Err()`, i.e.
`context.Canceled` or `context.DeadlineExceeded`).
-/

/-- One observable event during a `RunPageLocator` call. -/
inductive RPLEvent : Type where
  /-- The locator handler fires; the callback `cb` runs and returns
  `outcome` (`none` = nil error). -/
  | trigger (outcome : Option GoErr)
  /-- The outer (parent) context becomes done; `e` is the outer `Err()`
  value, which the derived context inherits. -/
  | parentCancel (e : GoErr)
deriving Repr

/-- Result of a returning `RunPageLocator` call: the returned error value
(`none` = a nil error) and whether `RemoveLocatorHandler` was reached. -/
structure RPLResult : Type where
  ret : Option GoErr
  handlerRemoved : Bool
deriving Repr

/-- The wait loop of `RunPageLocator` after successful registration.
`none` means the call has not returned (still blocked in `<-ctx.Done()`,
handler still registered).  A successful callback does not cancel anything
(jira.go line 39–41 only calls `cancel` on error), so the loop continues.
A failing callback calls `cancel(err)`, after which `ctx.Err()` is
`context.Canceled`; the handler is removed and that value returned.
When the parent becomes done with error `e`, the derived context's `Err()`
is `e`; the handler is removed and `e` returned. -/
def runPageLocatorLoop : List RPLEvent → Option RPLResult
  | [] => none
  | .trigger none :: rest => runPageLocatorLoop rest
  | .trigger (some _) :: _ => some ⟨some .canceled, true⟩
  | .parentCancel e :: _ => some ⟨some e, true⟩

/-- `RunPageLocator`: `locator.Page()` may fail (`pageErr`),
`page.AddLocatorHandler` may fail (`addHandlerErr`); otherwise the call
enters the wait loop over the event trace. -/
def runPageLocator (pageErr : Option GoErr) (addHandlerErr : Option GoErr)
    (events : List RPLEvent) : Option RPLResult :=
  match pageErr with
  | some e => some ⟨some e, false⟩
  | none =>
    match addHandlerErr with
    | some e => some ⟨some e, false⟩
    | none => runPageLocatorLoop events

/-!
## `errgroup`-based race group (jira.go lines 52–99, the Atlassian login file
lines 21–72)

Both login handlers create `g, ctx := errgroup.WithContext(ctx)`, start one
`g.Go` per watcher, each running `RunPageLocator(ctx, …)` on the shared
derived context, and return `g.Wait()`.

`errgroup.WithContext` semantics (from the package documentation): the first
`g.Go` function to return a non-nil error cancels the derived context (with
that error as cause, so `ctx.Err()` becomes `context.Canceled`) and `Wait`
returns that first error once all functions have returned.

Combined with `RunPageLocator` above this gives a deterministic composite
behaviour: a successful reaction leaves its watcher blocked; the first failing
reaction makes its own `RunPageLocator` return `context.Canceled`, which
cancels the group context, which in turn unblocks every other watcher with
return value `context.Canceled`; cancellation of the outer parent context with
error `e` unblocks every watcher with return value `e`.
-/

/-- Status of one watcher goroutine inside the group. -/
inductive WStatus : Type where
  /-- Still blocked in `RunPageLocator`'s `<-ctx.Done()`. -/
  | running
  /-- `RunPageLocator` returned `ret` and the `g.Go` function returned it. -/
  | done (ret : GoErr)
deriving Repr

/-- `true` iff the watcher is still blocked. -/
def WStatus.isRunning : WStatus → Bool
  | .running => true
  | .done _ => false

/-- State of a running race group. -/
structure GroupState : Type where
  /-- One status per watcher, in `g.Go` order. -/
  watchers : List WStatus
  /-- `Err()` of the `errgroup`-derived context once canceled (`none` = active). -/
  groupErr : Option GoErr
  /-- The first non-nil error recorded by the `errgroup` (what `Wait` returns). -/
  firstErr : Option GoErr
deriving Repr

/-- One observable event during a group run. -/
inductive GEvent : Type where
  /-- Watcher `i`'s locator handler fires and its reaction returns `outcome`
  (`none` = nil error). -/
  | trigger (i : Nat) (outcome : Option GoErr)
  /-- The outer parent context becomes done with `Err() = e`. -/
  | parentCancel (e : GoErr)
deriving Repr

/-- Initial group state: `k` watchers registered and blocked. -/
def initGroup (k : Nat) : GroupState :=
  ⟨List.replicate k .running, none, none⟩

/-- Once the shared derived context is canceled, every watcher still blocked
in `<-ctx.Done()` unblocks and its `RunPageLocator` returns the derived
context's `Err()` value `e`. -/
def settle (e : GoErr) (ws : List WStatus) : List WStatus :=
  ws.map fun w => match w with | .running => .done e | .done r => .done r

/-- One step of the race group.

A trigger whose reaction returns nil changes nothing (`RunPageLocator` only
cancels on a reaction error).  The first trigger whose reaction returns an
error makes its watcher's inner context canceled, so that watcher returns
`context.Canceled`; the `errgroup` records this first error and cancels the
group context (cause = that error, hence `Err() = context.Canceled`), which
settles every other watcher with `context.Canceled` as well.  Cancellation of
the parent with `Err() = e` settles every watcher with `e`, and the errgroup
records `e` as the first error.  After the group context is canceled the
handlers have been removed and late events have no effect. -/
def groupStep (s : GroupState) : GEvent → GroupState
  | .trigger i outcome =>
    match s.groupErr with
    | some _ => s
    | none =>
      match s.watchers.get? i with
      | some .running =>
        match outcome with
        | none => s
        | some _ =>
          { watchers := settle .canceled s.watchers
            groupErr := some .canceled
            firstErr := some .canceled }
      | _ => s
  | .parentCancel e =>
    match s.groupErr with
    | some _ => s
    | none =>
      { watchers := settle e s.watchers
        groupErr := some e
        firstErr := if s.watchers.any WStatus.isRunning then some e else s.firstErr }

/-- Run a `k`-watcher race group over an event trace. -/
def groupRun (k : Nat) (events : List GEvent) : GroupState :=
  events.foldl groupStep (initGroup k)

/-- `g.Wait()`: returns (`some` result) once every `g.Go` function has
returned, the result being the recorded first error (`none` = nil).
`none` means `Wait` is still blocked. -/
def groupWait (s : GroupState) : Option (Option GoErr) :=
  if s.watchers.all (fun w => !w.isRunning) then some s.firstErr else none

/-!
## The Jira login reaction (jira.go lines 56–95)

The reaction body of `JiraLoginHandler.Run`'s single watcher, with each
external playwright/resolver call replaced by its recorded outcome.
-/

/-- Outcomes of the external calls made by one invocation of the Jira login
reaction, in program order. -/
structure JiraLoginEnv : Type where
  /-- `s.CredentialsResolver(ctx)`: either `(username, password)` or an error. -/
  creds : Except GoErr (String × String)
  /-- `locator.Locator(`[name="os_password"]`).Fill(password)`. -/
  fillPassword : Option GoErr
  /-- `locator.Locator(`[name="os_username"]`).First().Fill(username)`. -/
  fillUsername : Option GoErr
  /-- `locator.Locator(`[for="login-form-remember-me"]`).Check(…)` (only
  performed when `RememberMe` is set). -/
  rememberCheck : Option GoErr
  /-- `locator.Locator(`[name="login"]`).Click()`. -/
  clickLogin : Option GoErr
  /-- `locator.WaitFor(State: hidden)`. -/
  waitHidden : Option GoErr
  /-- The error-banner probe
  `page.Locator(…aui-message-error…).InnerText(Timeout: 1000)`:
  either the banner's inner text or an error. -/
  innerText : Except GoErr String

/-- The Jira login reaction (jira.go lines 56–95): fill credentials, submit,
wait for the form to disappear, then probe for the error banner with a 1000 ms
bound; a probe failure that `errors.Is` `playwright.ErrTimeout` is returned as
nil (expected absence), any other probe failure is returned as is, and a probe
success with text `t` fails the reaction with `"login error: " ++ t`. -/
def jiraLoginReaction (rememberMe : Bool) (env : JiraLoginEnv) : Option GoErr :=
  match env.creds with
  | .error e => some e
  | .ok _ =>
    match env.fillPassword with
    | some e => some e
    | none =>
      match env.fillUsername with
      | some e => some e
      | none =>
        match (if rememberMe then env.rememberCheck else none) with
        | some e => some e
        | none =>
          match env.clickLogin with
          | some e => some e
          | none =>
            match env.waitHidden with
            | some e => some e
            | none =>
              match env.innerText with
              | .error e => if GoErr.is e GoErr.timeout then none else some e
              | .ok t => some (GoErr.msg ("login error: " ++ t))

/-- One observable event during `JiraLoginHandler.Run`. -/
inductive JLEvent : Type where
  /-- The login-form handler fires; `env` records the outcomes of the
  reaction's external calls for this invocation. -/
  | trigger (env : JiraLoginEnv)
  /-- The outer parent context becomes done with `Err() = e`. -/
  | parentCancel (e : GoErr)

/-- Translate a `JiraLoginHandler.Run` event to a group event by running the
reaction body. -/
def jlToGEvent (rememberMe : Bool) : JLEvent → GEvent
  | .trigger env => .trigger 0 (jiraLoginReaction rememberMe env)
  | .parentCancel e => .parentCancel e

/-- `JiraLoginHandler.Run` (jira.go lines 52–99): an errgroup race group with
a single watcher whose reaction is `jiraLoginReaction`.  `none` = `g.Wait()`
still blocked; `some r` = `Run` returned `r` (`r = none` meaning nil). -/
def jiraLoginRun (rememberMe : Bool) (events : List JLEvent) : Option (Option GoErr) :=
  groupWait (groupRun 1 (events.map (jlToGEvent rememberMe)))

/-!
## `AtlassianLoginHandler.Run` (Atlassian login file, lines 21–72)

Four watchers raced on one page: username, password, OTP code, and the
"Continue without two-step verification" affordance.
-/

/-- Outcomes of the external calls of the username or password reaction
(resolve the credential, fill the field, click submit). -/
structure AtlFieldEnv : Type where
  /-- `s.UsernameResolver(ctx)` resp. `s.PasswordResolver(ctx)`. -/
  resolve : Except GoErr String
  /-- `page.Locator(…).Fill(value)`. -/
  fill : Option GoErr
  /-- `page.Locator(…submit…).Click()`. -/
  click : Option GoErr

/-- The username reaction (lines 25–36) and, identically shaped, the password
reaction (lines 40–51): resolve, fill, click, first error wins. -/
def atlFieldReaction (env : AtlFieldEnv) : Option GoErr :=
  match env.resolve with
  | .error e => some e
  | .ok _ =>
    match env.fill with
    | some e => some e
    | none => env.click

/-- Outcomes of the external calls of the OTP reaction (lines 55–62):
resolve the code, fill the input (no click). -/
structure AtlOtpEnv : Type where
  /-- `s.OTPCodeResolver(ctx)`. -/
  resolve : Except GoErr String
  /-- `page.Locator(…otp-code-input…).Fill(otpCode)`. -/
  fill : Option GoErr

/-- The OTP reaction: resolve then fill. -/
def atlOtpReaction (env : AtlOtpEnv) : Option GoErr :=
  match env.resolve with
  | .error e => some e
  | .ok _ => env.fill

/-- The skip-OTP reaction (lines 66–68): a single click. -/
def atlSkipReaction (click : Option GoErr) : Option GoErr :=
  click

/-- One observable event during `AtlassianLoginHandler.Run`. -/
inductive AtlEvent : Type where
  /-- Username-field watcher (group index 0) fires. -/
  | triggerUsername (env : AtlFieldEnv)
  /-- Password-field watcher (group index 1) fires. -/
  | triggerPassword (env : AtlFieldEnv)
  /-- OTP watcher (group index 2) fires. -/
  | triggerOtp (env : AtlOtpEnv)
  /-- Skip-OTP watcher (group index 3) fires. -/
  | triggerSkip (click : Option GoErr)
  /-- The outer parent context becomes done with `Err() = e`. -/
  | parentCancel (e : GoErr)

/-- Translate an `AtlassianLoginHandler.Run` event to a group event by
running the corresponding reaction body. -/
def atlToGEvent : AtlEvent → GEvent
  | .triggerUsername env => .trigger 0 (atlFieldReaction env)
  | .triggerPassword env => .trigger 1 (atlFieldReaction env)
  | .triggerOtp env => .trigger 2 (atlOtpReaction env)
  | .triggerSkip click => .trigger 3 (atlSkipReaction click)
  | .parentCancel e => .parentCancel e

/-- `AtlassianLoginHandler.Run`: an errgroup race group of the four watchers.
`none` = `g.Wait()` still blocked; `some r` = `Run` returned `r`. -/
def atlassianLoginRun (events : List AtlEvent) : Option (Option GoErr) :=
  groupWait (groupRun 4 (events.map atlToGEvent))

/-!
## `TimeParseAny` (jira.go lines 18–29)

```go
func TimeParseAny(formats []string, value string) (time.Time, error) {
  errs := make([]error, 0)
  for _, format := range formats {
    if date, err := time.Parse(format, value); err != nil {
      errs = append(errs, err)
    } else {
      return date, nil
    }
  }
  return time.Time{}, errors.Join(errs...)
}
```

`time.Time` is opaque to this function; it is modelled by `GoTime` and
`time.Parse` is passed in as a function parameter.  `errors.Join` returns nil
when given no (non-nil) errors, and otherwise one error wrapping them all.
-/

/-- Opaque model of `time.Time`; `GoTime.zero` is the zero value `time.Time{}`. -/
structure GoTime : Type where
  val : Nat
deriving Repr, DecidableEq

/-- The zero value `time.Time{}`. -/
def GoTime.zero : GoTime := ⟨0⟩

/-- `errors.Join` applied to a list of non-nil errors: nil for the empty
list, otherwise a single error wrapping them all in order. -/
def errorsJoin : List GoErr → Option GoErr
  | [] => none
  | errs => some (.join errs)

/-- The loop of `TimeParseAny`, with `errs` the accumulated parse errors. -/
def timeParseAnyAux (parse : String → String → Except GoErr GoTime)
    (value : String) : List String → List GoErr → GoTime × Option GoErr
  | [], errs => (GoTime.zero, errorsJoin errs)
  | format :: rest, errs =>
    match parse format value with
    | .ok date => (date, none)
    | .error e => timeParseAnyAux parse value rest (errs ++ [e])

/-- `TimeParseAny(formats, value)` with `time.Parse` abstracted as `parse`. -/
def TimeParseAny (parse : String → String → Except GoErr GoTime)
    (formats : List String) (value : String) : GoTime × Option GoErr :=
  timeParseAnyAux parse value formats []

/-!
## `credentials.ResolveCredentials` and the `config` account types
-/

/-- `config.AccountPlain`. -/
structure AccountPlain : Type where
  username : String
  password : String
deriving Repr, DecidableEq

/-- `config.Account`; the Go field is a possibly-nil pointer `*AccountPlain`. -/
structure Account : Type where
  plain : Option AccountPlain
deriving Repr, DecidableEq

/-- `credentials.Credentials`. -/
structure Credentials : Type where
  username : String
  password : String
deriving Repr, DecidableEq

/-- `credentials.ResolveCredentials(ctx, account)` (the context argument is
unused by the body).  Returns the pair `(*Credentials, error)`. -/
def ResolveCredentials (account : Account) : Option Credentials × Option GoErr :=
  match account.plain with
  | some p => (some ⟨p.username, p.password⟩, none)
  | none => (none, some (GoErr.msg "no credentials specified"))

/-!
## `resolveAtlassianPage` (main file, lines 193–232)

```go
resolveAtlassianPage := sync.OnceValues(func() (playwright.Page, error) {
  atlassianPage, err := browserContext.NewPage()
  if err != nil { return nil, fmt.Errorf("could not create page: %w", err) }
  rootGroup.Go(func() error { defer atlassianPage.Close(); <-ctx.Done(); return nil })
  _ = rootGroup.TryGo(func() error { return (&AtlassianLoginHandler{…}).Run(ctx, atlassianPage) })
  return atlassianPage, nil
})
```

`sync.OnceValues(f)` returns a function that runs `f` exactly once, on the
first call, and returns the cached `(value, error)` pair to every call.  The
side effects of the initializer are tracked by counters in `AtlSessionState`.
-/

/-- Environment of the lazy Atlassian-session initializer: the outcome of
`browserContext.NewPage()` (a page identifier, or an error). -/
structure AtlSessionEnv : Type where
  newPage : Except GoErr Nat

/-- Side-effect counters of the initializer. -/
structure AtlSessionState : Type where
  /-- Number of `browserContext.NewPage()` invocations. -/
  newPageCalls : Nat
  /-- Number of page-closer goroutines started via `rootGroup.Go`. -/
  closersSpawned : Nat
  /-- Number of `AtlassianLoginHandler` registrations via `rootGroup.TryGo`. -/
  loginHandlersStarted : Nat
deriving Repr, DecidableEq

/-- The body of the `sync.OnceValues` initializer: create the page (wrapping
a failure), and on success spawn the closer goroutine and start the Atlassian
login handler. -/
def atlassianPageInit (env : AtlSessionEnv) (s : AtlSessionState) :
    (Option Nat × Option GoErr) × AtlSessionState :=
  match env.newPage with
  | .error e =>
      ((none, some (GoErr.wrap "could not create page" e)),
       { s with newPageCalls := s.newPageCalls + 1 })
  | .ok p =>
      ((some p, none),
       { newPageCalls := s.newPageCalls + 1
         closersSpawned := s.closersSpawned + 1
         loginHandlersStarted := s.loginHandlersStarted + 1 })

/-- The `sync.OnceValues` cache: `none` before the first call, then the
cached `(page, error)` pair. -/
structure OnceCache : Type where
  cached : Option (Option Nat × Option GoErr)

/-- One call to `resolveAtlassianPage`: return the cached pair if present,
otherwise run the initializer once and cache its result. -/
def resolveAtlassianPage (env : AtlSessionEnv) :
    OnceCache × AtlSessionState →
      (Option Nat × Option GoErr) × (OnceCache × AtlSessionState)
  | (⟨some r⟩, s) => (r, (⟨some r⟩, s))
  | (⟨none⟩, s) =>
    ((atlassianPageInit env s).1,
     (⟨some (atlassianPageInit env s).1⟩, (atlassianPageInit env s).2))

/-- `n` successive calls to `resolveAtlassianPage` (one per processed
instance), collecting the returned pairs. -/
def resolveAtlassianPageCalls (env : AtlSessionEnv) :
    Nat → OnceCache × AtlSessionState →
      List (Option Nat × Option GoErr) × (OnceCache × AtlSessionState)
  | 0, st => ([], st)
  | n + 1, st =>
    ((resolveAtlassianPage env st).1 ::
       (resolveAtlassianPageCalls env n (resolveAtlassianPage env st).2).1,
     (resolveAtlassianPageCalls env n (resolveAtlassianPage env st).2).2)

/-- The program's initial state: nothing cached, no side effects yet. -/
def atlInitState : OnceCache × AtlSessionState :=
  (⟨none⟩, ⟨0, 0, 0⟩)

/-!
## Helper lemmas
-/

/-- A run of successful callbacks never terminates the `RunPageLocator`
wait loop: `cancel` is only invoked on a callback error. -/
theorem runPageLocatorLoop_skip_success :
    ∀ (ss tail : List RPLEvent),
      (∀ ev ∈ ss, ev = RPLEvent.trigger none) →
      runPageLocatorLoop (ss ++ tail) = runPageLocatorLoop tail
  | [], _, _ => rfl
  | a :: as, tail, h => by
    have ha : a = RPLEvent.trigger none := h a (List.mem_cons_self a as)
    subst ha
    exact runPageLocatorLoop_skip_success as tail
      (fun ev hev => h ev (List.mem_cons_of_mem _ hev))

/-- A trigger whose reaction returns nil is a no-op for the race group. -/
theorem groupStep_trigger_none (s : GroupState) (i : Nat) :
    groupStep s (GEvent.trigger i none) = s := by
  simp only [groupStep]
  split
  · rfl
  · split <;> rfl

/-- A trace of nil-returning triggers leaves any group state unchanged. -/
theorem groupFold_noop :
    ∀ (events : List GEvent) (s : GroupState),
      (∀ ev ∈ events, ∃ i, ev = GEvent.trigger i none) →
      events.foldl groupStep s = s
  | [], _, _ => rfl
  | a :: as, s, h => by
    obtain ⟨i, hi⟩ := h a (List.mem_cons_self a as)
    subst hi
    rw [List.foldl_cons, groupStep_trigger_none]
    exact groupFold_noop as s (fun ev hev => h ev (List.mem_cons_of_mem _ hev))

/-- Once the group context is canceled every event is a no-op. -/
theorem groupStep_frozen (s : GroupState) (e : GoErr)
    (h : s.groupErr = some e) (ev : GEvent) : groupStep s ev = s := by
  cases ev with
  | trigger i outcome => unfold groupStep; rw [h]
  | parentCancel e => unfold groupStep; rw [h]

/-- Once the group context is canceled a whole tail of events is a no-op. -/
theorem groupFold_frozen :
    ∀ (events : List GEvent) (s : GroupState) (e : GoErr),
      s.groupErr = some e → events.foldl groupStep s = s
  | [], _, _, _ => rfl
  | a :: as, s, e, h => by
    rw [List.foldl_cons, groupStep_frozen s e h]
    exact groupFold_frozen as s e h

/-- In the initial group state all `k` watchers are blocked, so with at least
one watcher `g.Wait()` has not returned. -/
theorem groupWait_init (k : Nat) (hk : 0 < k) : groupWait (initGroup k) = none := by
  cases k with
  | zero => exact absurd hk (by decide)
  | succ n =>
    simp [groupWait, initGroup, List.replicate_succ, WStatus.isRunning]

/-- Settling a list of blocked watchers marks them all done. -/
theorem settle_replicate (k : Nat) (e : GoErr) :
    settle e (List.replicate k WStatus.running) = List.replicate k (WStatus.done e) := by
  simp [settle, List.map_replicate]

/-- A list of done watchers has no running member. -/
theorem all_done_replicate (k : Nat) (e : GoErr) :
    (List.replicate k (WStatus.done e)).all (fun w => !w.isRunning) = true := by
  induction k with
  | zero => rfl
  | succ n ih => simp [List.replicate_succ, List.all_cons, WStatus.isRunning, ih]

/-- With at least one watcher registered, some watcher is still blocked in
the initial state. -/
theorem any_running_replicate_succ (n : Nat) :
    (List.replicate (n + 1) WStatus.running).any WStatus.isRunning = true := by
  rw [List.replicate_succ, List.any_cons]
  simp [WStatus.isRunning]

/-- Cancelling the parent context in the initial state unblocks every watcher
with the parent's error, which the errgroup records and `Wait` returns. -/
theorem group_parentCancel_init (k : Nat) (hk : 0 < k) (e : GoErr) :
    groupWait (groupStep (initGroup k) (GEvent.parentCancel e)) = some (some e) := by
  cases k with
  | zero => exact absurd hk (by decide)
  | succ n =>
    have h1 : groupStep (initGroup (n + 1)) (GEvent.parentCancel e) =
        { watchers := settle e (List.replicate (n + 1) WStatus.running)
          groupErr := some e
          firstErr :=
            if (List.replicate (n + 1) WStatus.running).any WStatus.isRunning
            then some e else none } := rfl
    rw [h1, settle_replicate, any_running_replicate_succ]
    unfold groupWait
    rw [all_done_replicate]
    rfl

/-!
## Claim theorems
-/

/-- Claim C1, counterexample.  A single trigger whose Reaction completes
successfully does not make `RunPageLocator` return: the call is still blocked
(result `none`), so it neither returned nil nor removed the handler — the
code only calls `cancel` when the callback errors (jira.go lines 39–41), and
`<-ctx.Done()` keeps blocking. -/
theorem C1_counterexample :
    runPageLocator none none [RPLEvent.trigger none] = none ∧
    (none : Option RPLResult) ≠ some ⟨none, true⟩ :=
  ⟨rfl, fun h => Option.noConfusion h⟩

/-- Claim C1 (corrected): if the Reaction completes successfully on its first
trigger — and on every later trigger — `RunPageLocator` does not return at
all: the handler stays registered and the call stays blocked until some
Reaction invocation fails or the outer context is canceled. -/
theorem C1_success_keeps_waiting (events : List RPLEvent)
    (h : ∀ ev ∈ events, ev = RPLEvent.trigger none) :
    runPageLocator none none events = none := by
  show runPageLocatorLoop events = none
  rw [show events = events ++ [] from (List.append_nil events).symm,
    runPageLocatorLoop_skip_success events [] h]
  rfl

/-- Witness for C1: two successful triggers leave the call blocked. -/
theorem C1_success_keeps_waiting_witness :
    runPageLocator none none [RPLEvent.trigger none, RPLEvent.trigger none] = none :=
  C1_success_keeps_waiting [RPLEvent.trigger none, RPLEvent.trigger none] (by simp)

/-- Claim C2, counterexample.  When the Reaction fails with the error
`msg "boom"`, `RunPageLocator` returns `context.Canceled` (the value of
`ctx.Err()` after `cancel(err)`), not the Reaction's error; the original
error is not recoverable from the returned value by `errors.Is`. -/
theorem C2_counterexample :
    runPageLocator none none [RPLEvent.trigger (some (GoErr.msg "boom"))] =
      some ⟨some GoErr.canceled, true⟩ ∧
    GoErr.canceled ≠ GoErr.msg "boom" ∧
    GoErr.is GoErr.canceled (GoErr.msg "boom") = false :=
  ⟨rfl, fun h => GoErr.noConfusion h, by decide⟩

/-- Claim C2 (corrected): if a Reaction invocation returns an error `e`
(after any number of successful invocations), `RunPageLocator` unblocks,
removes the handler and returns `context.Canceled` — the error `e` is
recorded only as the cancellation cause and is not part of the returned
value. -/
theorem C2_error_returns_canceled (ss : List RPLEvent) (e : GoErr)
    (rest : List RPLEvent)
    (h : ∀ ev ∈ ss, ev = RPLEvent.trigger none) :
    runPageLocator none none (ss ++ RPLEvent.trigger (some e) :: rest) =
      some ⟨some GoErr.canceled, true⟩ := by
  show runPageLocatorLoop (ss ++ RPLEvent.trigger (some e) :: rest) = _
  rw [runPageLocatorLoop_skip_success ss _ h]
  rfl

/-- Witness for C2: one successful trigger, then a failing one. -/
theorem C2_error_returns_canceled_witness :
    runPageLocator none none
      ([RPLEvent.trigger none] ++ RPLEvent.trigger (some (GoErr.msg "boom")) :: []) =
      some ⟨some GoErr.canceled, true⟩ :=
  C2_error_returns_canceled [RPLEvent.trigger none] (GoErr.msg "boom") [] (by simp)

/-- Claim C5, counterexample.  External cancellation (no trigger at all,
parent context canceled) and a local Reaction failure produce the *same*
result `some ⟨some context.Canceled, true⟩`, so the value returned on
cancellation is not distinct from the one produced by a failing Reaction:
a caller cannot tell the two apart from the return value. -/
theorem C5_counterexample :
    runPageLocator none none [RPLEvent.parentCancel GoErr.canceled] =
      runPageLocator none none [RPLEvent.trigger (some (GoErr.msg "local failure"))] ∧
    runPageLocator none none [RPLEvent.parentCancel GoErr.canceled] =
      some ⟨some GoErr.canceled, true⟩ :=
  ⟨rfl, rfl⟩

/-- Claim C5 (corrected): if the Reaction never triggers and the caller
cancels the outer context, `RunPageLocator` unblocks, removes the handler and
returns the outer context's error (`context.Canceled`, or
`context.DeadlineExceeded` for a deadline) — a non-nil, cancellation-
classified error.  However this value is not distinct from what a failing
Reaction produces: a Reaction failure also makes the call return
`context.Canceled`. -/
theorem C5_cancel_unblocks (e e' : GoErr) :
    runPageLocator none none [RPLEvent.parentCancel e] = some ⟨some e, true⟩ ∧
    runPageLocator none none [RPLEvent.trigger (some e')] =
      some ⟨some GoErr.canceled, true⟩ :=
  ⟨rfl, rfl⟩

/-- Claim C3, counterexample.  All four Reactions of
`AtlassianLoginHandler.Run` complete successfully (username and password
filled and submitted, OTP filled, skip affordance clicked), yet the group's
`Run` does not return at all (`none`), let alone return nil: no successful
reaction ever cancels the shared context, so `g.Wait()` stays blocked. -/
theorem C3_counterexample :
    atlassianLoginRun
      [AtlEvent.triggerUsername ⟨Except.ok "user", none, none⟩,
       AtlEvent.triggerPassword ⟨Except.ok "pass", none, none⟩,
       AtlEvent.triggerOtp ⟨Except.ok "123456", none⟩,
       AtlEvent.triggerSkip none] = none ∧
    (none : Option (Option GoErr)) ≠ some none :=
  ⟨rfl, fun h => Option.noConfusion h⟩

/-- Claim C3 (corrected): for a race group of `k ≥ 1` watchers, if every
Reaction invocation in the trace succeeds — in any order and interleaving —
the group's `Run` call does not return; it returns only once the outer
context is canceled, and then yields that context's non-nil error rather
than nil. -/
theorem C3_all_success_blocks (k : Nat) (events : List GEvent) (e : GoErr)
    (hk : 0 < k)
    (h : ∀ ev ∈ events, ∃ i, ev = GEvent.trigger i none) :
    groupWait (groupRun k events) = none ∧
    groupWait (groupRun k (events ++ [GEvent.parentCancel e])) = some (some e) := by
  have hrun : groupRun k events = initGroup k := groupFold_noop events (initGroup k) h
  constructor
  · rw [hrun]
    exact groupWait_init k hk
  · show groupWait ((events ++ [GEvent.parentCancel e]).foldl groupStep (initGroup k)) = _
    rw [List.foldl_append]
    show groupWait ([GEvent.parentCancel e].foldl groupStep (groupRun k events)) = _
    rw [hrun]
    exact group_parentCancel_init k hk e

/-- Witness for C3: one watcher, one successful trigger, then external
cancellation. -/
theorem C3_all_success_blocks_witness :
    groupWait (groupRun 1 [GEvent.trigger 0 none]) = none ∧
    groupWait (groupRun 1 ([GEvent.trigger 0 none] ++ [GEvent.parentCancel GoErr.canceled])) =
      some (some GoErr.canceled) :=
  C3_all_success_blocks 1 [GEvent.trigger 0 none] GoErr.canceled (by decide)
    (by intro ev hev
        rw [List.mem_singleton] at hev
        exact ⟨0, hev⟩)

/-- Claim C4, counterexample.  In `AtlassianLoginHandler.Run`, username,
password and skip Reactions succeed while the OTP Reaction fails with
`msg "fill failed"`; the group's `Run` returns `context.Canceled`, not the
failing Reaction's error. -/
theorem C4_counterexample :
    atlassianLoginRun
      [AtlEvent.triggerUsername ⟨Except.ok "user", none, none⟩,
       AtlEvent.triggerPassword ⟨Except.ok "pass", none, none⟩,
       AtlEvent.triggerOtp ⟨Except.ok "123456", some (GoErr.msg "fill failed")⟩,
       AtlEvent.triggerSkip none] = some (some GoErr.canceled) ∧
    GoErr.canceled ≠ GoErr.msg "fill failed" :=
  ⟨rfl, fun h => GoErr.noConfusion h⟩

/-- Claim C4 (corrected): for a race group of `k` watchers, if after any run
of successful Reaction invocations some watcher `i`'s Reaction fails with an
error `e`, the group's `Run` call returns `context.Canceled` — regardless of
`e`, of which watcher failed, and of any later events: the failing watcher's
`RunPageLocator` returns `ctx.Err() = context.Canceled`, the errgroup records
that value as the first error and cancels the shared context, and `Wait`
returns it. -/
theorem C4_first_failure_returns_canceled (k : Nat) (ss : List GEvent)
    (i : Nat) (e : GoErr) (rest : List GEvent)
    (hik : i < k)
    (hss : ∀ ev ∈ ss, ∃ j, ev = GEvent.trigger j none) :
    groupWait (groupRun k (ss ++ GEvent.trigger i (some e) :: rest)) =
      some (some GoErr.canceled) := by
  show groupWait ((ss ++ GEvent.trigger i (some e) :: rest).foldl groupStep (initGroup k)) = _
  rw [List.foldl_append, groupFold_noop ss (initGroup k) hss, List.foldl_cons]
  have hget : (initGroup k).watchers.get? i = some WStatus.running := by
    show (List.replicate k WStatus.running).get? i = some WStatus.running
    rw [List.get?_eq_getElem?, List.getElem?_replicate, if_pos hik]
  have hstep : groupStep (initGroup k) (GEvent.trigger i (some e)) =
      { watchers := settle GoErr.canceled (initGroup k).watchers
        groupErr := some GoErr.canceled
        firstErr := some GoErr.canceled } := by
    simp only [groupStep, hget]
    rfl
  rw [hstep]
  rw [groupFold_frozen rest _ GoErr.canceled rfl]
  show groupWait
    { watchers := settle GoErr.canceled (List.replicate k WStatus.running)
      groupErr := some GoErr.canceled
      firstErr := some GoErr.canceled } = _
  rw [settle_replicate]
  unfold groupWait
  rw [all_done_replicate]
  rfl

/-- Witness for C4: two watchers, watcher 1 succeeds, watcher 0 fails,
watcher 1 fires again afterwards. -/
theorem C4_first_failure_returns_canceled_witness :
    groupWait (groupRun 2
      ([GEvent.trigger 1 none] ++
        GEvent.trigger 0 (some (GoErr.msg "x")) :: [GEvent.trigger 1 none])) =
      some (some GoErr.canceled) :=
  C4_first_failure_returns_canceled 2 [GEvent.trigger 1 none] 0 (GoErr.msg "x")
    [GEvent.trigger 1 none] (by decide)
    (by intro ev hev
        rw [List.mem_singleton] at hev
        exact ⟨1, hev⟩)

/-- Claim C6 (confirmed): in the Jira login Reaction, when credentials
resolve and every field action succeeds, the error-banner probe's outcome is
classified exactly as jira.go lines 87–92 do: a probe failure with the
timeout error (`errors.Is(err, playwright.ErrTimeout)`) makes the Reaction
return nil — expected absence is success — while a probe failure not
classified as the timeout is returned as the Reaction's own error,
unmodified. -/
theorem C6_probe_classification (rm : Bool) (env : JiraLoginEnv)
    (up : String × String)
    (hc : env.creds = Except.ok up)
    (hfp : env.fillPassword = none) (hfu : env.fillUsername = none)
    (hrc : env.rememberCheck = none) (hcl : env.clickLogin = none)
    (hwh : env.waitHidden = none) :
    (env.innerText = Except.error GoErr.timeout → jiraLoginReaction rm env = none) ∧
    (∀ e, env.innerText = Except.error e → GoErr.is e GoErr.timeout = false →
      jiraLoginReaction rm env = some e) := by
  have hrm : (if rm then env.rememberCheck else none) = none := by
    cases rm <;> simp [hrc]
  constructor
  · intro hit
    simp only [jiraLoginReaction, hc, hfp, hfu, hrm, hcl, hwh, hit]
    rw [show GoErr.is GoErr.timeout GoErr.timeout = true from by decide]
    rfl
  · intro e hit his
    simp only [jiraLoginReaction, hc, hfp, hfu, hrm, hcl, hwh, hit, his]
    rfl

/-- Witness for C6: a timeout-failing probe yields a nil Reaction, a probe
failing with an unrelated error yields that error. -/
theorem C6_probe_classification_witness :
    jiraLoginReaction false
      ⟨Except.ok ("u", "p"), none, none, none, none, none,
        Except.error GoErr.timeout⟩ = none ∧
    jiraLoginReaction false
      ⟨Except.ok ("u", "p"), none, none, none, none, none,
        Except.error (GoErr.msg "detached")⟩ = some (GoErr.msg "detached") :=
  ⟨(C6_probe_classification false
      ⟨Except.ok ("u", "p"), none, none, none, none, none,
        Except.error GoErr.timeout⟩
      ("u", "p") rfl rfl rfl rfl rfl rfl).1 rfl,
   (C6_probe_classification false
      ⟨Except.ok ("u", "p"), none, none, none, none, none,
        Except.error (GoErr.msg "detached")⟩
      ("u", "p") rfl rfl rfl rfl rfl rfl).2 (GoErr.msg "detached") rfl (by decide)⟩

/-- Claim C7, counterexample.  The error-banner probe finds the text
"Invalid username or password"; the Reaction fails with
`msg "login error: Invalid username or password"` as the claim says, but the
`Run` call returns `context.Canceled`: an error that is neither equal to the
login error, nor related to it by `errors.Is` — the banner text is absent
from the value returned to the caller. -/
theorem C7_counterexample :
    jiraLoginReaction true
      ⟨Except.ok ("user", "pass"), none, none, none, none, none,
        Except.ok "Invalid username or password"⟩ =
      some (GoErr.msg ("login error: " ++ "Invalid username or password")) ∧
    jiraLoginRun true
      [JLEvent.trigger
        ⟨Except.ok ("user", "pass"), none, none, none, none, none,
          Except.ok "Invalid username or password"⟩] = some (some GoErr.canceled) ∧
    GoErr.canceled ≠ GoErr.msg ("login error: " ++ "Invalid username or password") ∧
    GoErr.is GoErr.canceled
      (GoErr.msg ("login error: " ++ "Invalid username or password")) = false :=
  ⟨rfl, rfl, fun h => GoErr.noConfusion h, by decide⟩

/-- Claim C7 (corrected): if the error-banner probe succeeds with text `t`,
the Jira login Reaction fails with the error `msg ("login error: " ++ t)` —
which does carry the banner text — but that error only becomes the inner
cancellation cause; the group's `Run` call returns `context.Canceled`, which
does not carry `t`. -/
theorem C7_banner_text_lost (rm : Bool) (env : JiraLoginEnv)
    (up : String × String) (t : String)
    (hc : env.creds = Except.ok up)
    (hfp : env.fillPassword = none) (hfu : env.fillUsername = none)
    (hrc : env.rememberCheck = none) (hcl : env.clickLogin = none)
    (hwh : env.waitHidden = none) (hit : env.innerText = Except.ok t) :
    jiraLoginReaction rm env = some (GoErr.msg ("login error: " ++ t)) ∧
    jiraLoginRun rm [JLEvent.trigger env] = some (some GoErr.canceled) := by
  have hrm : (if rm then env.rememberCheck else none) = none := by
    cases rm <;> simp [hrc]
  have hr : jiraLoginReaction rm env = some (GoErr.msg ("login error: " ++ t)) := by
    simp only [jiraLoginReaction, hc, hfp, hfu, hrm, hcl, hwh, hit]
  refine ⟨hr, ?_⟩
  show groupWait (groupRun 1 ([JLEvent.trigger env].map (jlToGEvent rm))) = _
  simp only [List.map, jlToGEvent, hr]
  rfl

/-- Witness for C7: a concrete banner text flows into the Reaction error but
not into the `Run` result. -/
theorem C7_banner_text_lost_witness :
    jiraLoginReaction true
      ⟨Except.ok ("u", "p"), none, none, none, none, none, Except.ok "bad creds"⟩ =
      some (GoErr.msg ("login error: " ++ "bad creds")) ∧
    jiraLoginRun true
      [JLEvent.trigger
        ⟨Except.ok ("u", "p"), none, none, none, none, none, Except.ok "bad creds"⟩] =
      some (some GoErr.canceled) :=
  C7_banner_text_lost true
    ⟨Except.ok ("u", "p"), none, none, none, none, none, Except.ok "bad creds"⟩
    ("u", "p") "bad creds" rfl rfl rfl rfl rfl rfl rfl

/-- After the first call has populated the `sync.OnceValues` cache, every
further call returns the cached pair and performs no side effect. -/
theorem resolveAtlassianPageCalls_cached (env : AtlSessionEnv)
    (r : Option Nat × Option GoErr) (s : AtlSessionState) :
    ∀ n, resolveAtlassianPageCalls env n (⟨some r⟩, s) =
      (List.replicate n r, (⟨some r⟩, s))
  | 0 => rfl
  | n + 1 => by
    show (r :: (resolveAtlassianPageCalls env n (⟨some r⟩, s)).1,
          (resolveAtlassianPageCalls env n (⟨some r⟩, s)).2) =
      (List.replicate (n + 1) r, (⟨some r⟩, s))
    rw [resolveAtlassianPageCalls_cached env r s n, List.replicate_succ]

/-- A single run of the initializer performs each side effect at most once. -/
theorem atlassianPageInit_counters (env : AtlSessionEnv) :
    (atlassianPageInit env ⟨0, 0, 0⟩).2.newPageCalls ≤ 1 ∧
    (atlassianPageInit env ⟨0, 0, 0⟩).2.closersSpawned ≤ 1 ∧
    (atlassianPageInit env ⟨0, 0, 0⟩).2.loginHandlersStarted ≤ 1 := by
  cases hnp : env.newPage <;> simp [atlassianPageInit, hnp]

/-- Claim C8 (confirmed): `resolveAtlassianPage` is a single-initialization
handle with compute-once-cache-forever semantics — over any number `n` of
calls, the page creation, the closer goroutine and the login-handler
registration each run at most once, and every call returns the same
`(page, error)` pair as the first call (the initializer's result). -/
theorem C8_once_semantics (env : AtlSessionEnv) (n : Nat) :
    ((resolveAtlassianPageCalls env n atlInitState).2.2.newPageCalls ≤ 1 ∧
     (resolveAtlassianPageCalls env n atlInitState).2.2.closersSpawned ≤ 1 ∧
     (resolveAtlassianPageCalls env n atlInitState).2.2.loginHandlersStarted ≤ 1) ∧
    ∀ r ∈ (resolveAtlassianPageCalls env n atlInitState).1,
      r = (atlassianPageInit env ⟨0, 0, 0⟩).1 := by
  cases n with
  | zero =>
    refine ⟨⟨?_, ?_, ?_⟩, ?_⟩
    · show (0 : Nat) ≤ 1
      decide
    · show (0 : Nat) ≤ 1
      decide
    · show (0 : Nat) ≤ 1
      decide
    · intro r hr
      exact absurd hr (List.not_mem_nil r)
  | succ m =>
    have hfirst : resolveAtlassianPageCalls env (m + 1) atlInitState =
        ((atlassianPageInit env ⟨0, 0, 0⟩).1 ::
           (resolveAtlassianPageCalls env m
             (⟨some (atlassianPageInit env ⟨0, 0, 0⟩).1⟩,
              (atlassianPageInit env ⟨0, 0, 0⟩).2)).1,
         (resolveAtlassianPageCalls env m
             (⟨some (atlassianPageInit env ⟨0, 0, 0⟩).1⟩,
              (atlassianPageInit env ⟨0, 0, 0⟩).2)).2) := rfl
    rw [hfirst, resolveAtlassianPageCalls_cached env _ _ m]
    refine ⟨atlassianPageInit_counters env, ?_⟩
    intro r hr
    rcases List.mem_cons.mp hr with h | h
    · exact h
    · exact List.eq_of_mem_replicate h

/-- Witness for C8: two calls with a successfully created page. -/
theorem C8_once_semantics_witness :
    (resolveAtlassianPageCalls ⟨Except.ok 1⟩ 2 atlInitState).2.2.newPageCalls ≤ 1 ∧
    (some 1, (none : Option GoErr)) = (atlassianPageInit ⟨Except.ok 1⟩ ⟨0, 0, 0⟩).1 :=
  ⟨(C8_once_semantics ⟨Except.ok 1⟩ 2).1.1,
   (C8_once_semantics ⟨Except.ok 1⟩ 2).2 (some 1, none)
     (show (some 1, (none : Option GoErr)) ∈
        [((some 1 : Option Nat), (none : Option GoErr)),
         ((some 1 : Option Nat), (none : Option GoErr))] from
      List.mem_cons_self _ _)⟩

/-- Leading formats that fail to parse only accumulate errors; the first
format that parses returns its date with a nil error. -/
theorem timeParseAnyAux_first_ok
    (parse : String → String → Except GoErr GoTime) (value : String)
    (format : String) (post : List String) (t : GoTime)
    (hok : parse format value = Except.ok t) :
    ∀ (pre : List String) (errs : List GoErr),
      (∀ g ∈ pre, ∃ e, parse g value = Except.error e) →
      timeParseAnyAux parse value (pre ++ format :: post) errs = (t, none)
  | [], errs, _ => by
    show timeParseAnyAux parse value (format :: post) errs = (t, none)
    simp only [timeParseAnyAux, hok]
  | g :: gs, errs, h => by
    obtain ⟨e, he⟩ := h g (List.mem_cons_self g gs)
    show timeParseAnyAux parse value (g :: (gs ++ format :: post)) errs = (t, none)
    simp only [timeParseAnyAux, he]
    exact timeParseAnyAux_first_ok parse value format post t hok gs (errs ++ [e])
      (fun x hx => h x (List.mem_cons_of_mem _ hx))

/-- When every format fails, the loop reaches the end with all individual
errors accumulated in order and joins them. -/
theorem timeParseAnyAux_all_fail
    (parse : String → String → Except GoErr GoTime) (value : String) :
    ∀ (formats : List String) (es errs : List GoErr),
      formats.map (fun f => parse f value) = es.map Except.error →
      timeParseAnyAux parse value formats errs = (GoTime.zero, errorsJoin (errs ++ es))
  | [], es, errs, h => by
    cases es with
    | nil => simp [timeParseAnyAux]
    | cons e es' => simp at h
  | f :: fs, es, errs, h => by
    cases es with
    | nil => simp at h
    | cons e es' =>
      rw [List.map_cons, List.map_cons] at h
      injection h with h1 h2
      show timeParseAnyAux parse value (f :: fs) errs = _
      simp only [timeParseAnyAux, h1]
      rw [timeParseAnyAux_all_fail parse value fs es' (errs ++ [e]) h2,
        List.append_assoc]
      rfl

/-- Claim C9, counterexample.  With an empty format list no format parses the
value, yet `TimeParseAny` returns a *nil* error together with the zero time:
`errors.Join` of an empty error list is nil, contradicting the claim's
"non-nil error joining the individual parse errors" for this input. -/
theorem C9_counterexample :
    TimeParseAny (fun _ _ => Except.error (GoErr.msg "parse error")) [] "2024-01-01" =
      (GoTime.zero, none) :=
  rfl

/-- Claim C9 (corrected): if some format parses the value, `TimeParseAny`
returns the parsed time of the first such format in list order with a nil
error; if no format parses and the format list is *non-empty*, it returns the
zero time with a non-nil error joining the individual parse errors in order.
(For the empty format list it returns the zero time and a nil error, since
`errors.Join` of no errors is nil.) -/
theorem C9_timeParseAny (parse : String → String → Except GoErr GoTime)
    (value : String) :
    (∀ (pre : List String) (format : String) (post : List String) (t : GoTime),
       (∀ g ∈ pre, ∃ e, parse g value = Except.error e) →
       parse format value = Except.ok t →
       TimeParseAny parse (pre ++ format :: post) value = (t, none)) ∧
    (∀ (formats : List String) (es : List GoErr),
       formats ≠ [] →
       formats.map (fun f => parse f value) = es.map Except.error →
       TimeParseAny parse formats value = (GoTime.zero, some (GoErr.join es))) := by
  constructor
  · intro pre format post t hpre hok
    exact timeParseAnyAux_first_ok parse value format post t hok pre [] hpre
  · intro formats es hne h
    have haux := timeParseAnyAux_all_fail parse value formats es [] h
    rw [List.nil_append] at haux
    show timeParseAnyAux parse value formats [] = _
    rw [haux]
    cases es with
    | nil =>
      cases formats with
      | nil => exact absurd rfl hne
      | cons f fs => simp at h
    | cons e es' => rfl

/-- Witness for C9: a parse function succeeding exactly when the format
equals the value; one succeeding list, one all-failing list. -/
theorem C9_timeParseAny_witness :
    TimeParseAny
      (fun f v => if f = v then Except.ok (⟨1⟩ : GoTime)
        else Except.error (GoErr.msg f))
      (["a"] ++ "b" :: []) "b" = ((⟨1⟩ : GoTime), none) ∧
    TimeParseAny
      (fun f v => if f = v then Except.ok (⟨1⟩ : GoTime)
        else Except.error (GoErr.msg f))
      ["a", "b"] "zzz" =
      (GoTime.zero, some (GoErr.join [GoErr.msg "a", GoErr.msg "b"])) :=
  ⟨(C9_timeParseAny
      (fun f v => if f = v then Except.ok (⟨1⟩ : GoTime)
        else Except.error (GoErr.msg f)) "b").1
     ["a"] "b" [] ⟨1⟩
     (by intro g hg
         rw [List.mem_singleton] at hg
         subst hg
         exact ⟨GoErr.msg "a", rfl⟩)
     rfl,
   (C9_timeParseAny
      (fun f v => if f = v then Except.ok (⟨1⟩ : GoTime)
        else Except.error (GoErr.msg f)) "zzz").2
     ["a", "b"] [GoErr.msg "a", GoErr.msg "b"]
     (by intro h
         exact List.noConfusion h)
     rfl⟩

/-- Claim C10 (confirmed): `ResolveCredentials` returns non-nil credentials
with a nil error exactly when `account.Plain` is non-nil, in which case the
credentials carry exactly the plain username and password; otherwise it
returns nil credentials with the non-nil "no credentials specified" error; it
never returns nil credentials together with a nil error. -/
theorem C10_resolveCredentials (account : Account) :
    (∀ p, account.plain = some p →
       ResolveCredentials account = (some ⟨p.username, p.password⟩, none)) ∧
    (account.plain = none →
       ResolveCredentials account =
         (none, some (GoErr.msg "no credentials specified"))) ∧
    ¬((ResolveCredentials account).1 = none ∧ (ResolveCredentials account).2 = none) ∧
    (((ResolveCredentials account).1.isSome ∧ (ResolveCredentials account).2 = none) ↔
       account.plain.isSome) := by
  cases h : account.plain with
  | some p =>
    refine ⟨?_, ?_, ?_, ?_⟩ <;> simp [ResolveCredentials, h]
  | none =>
    refine ⟨?_, ?_, ?_, ?_⟩ <;> simp [ResolveCredentials, h]

/-- Witness for C10: a plain account resolves to its own username and
password. -/
theorem C10_resolveCredentials_witness :
    ResolveCredentials ⟨some ⟨"u", "p"⟩⟩ = (some ⟨"u", "p"⟩, none) :=
  (C10_resolveCredentials ⟨some ⟨"u", "p"⟩⟩).1 ⟨"u", "p"⟩ rfl
